import Mathlib

/-!
Shallow embedding of the CPS loader (`src/loader.cpp` of cps-config) and
verification of its specification.

The C++ code parses a JSON document (via JsonCpp) into a `Package` model,
reporting errors as `tl::expected<_, std::string>` values.  We embed the
parsed JSON tree as an inductive type, the error channel as `Except Failure`,
and each function of `loader.cpp` as a Lean function with the same branch
structure (the `TRY` macro's early return on error becomes an explicit match
on the `Except`).

File reading and JSON text parsing (`file >> root` in `load`) are outside
the embedding: following the specification's top-level contract, `load` here
starts from the already-parsed document root.
-/

namespace Loader

/-- Parsed JSON value, embedding `Json::Value` restricted to the shapes the
loader inspects.  Numbers are embedded as integers; none of the verified
properties depend on numeric precision. -/
inductive Json where
  | null
  | bool (b : Bool)
  | num (n : Int)
  | str (s : String)
  | arr (elems : List Json)
  | obj (fields : List (String × Json))

/-- Lookup of a field in an object node; `none` for a missing field or a
non-object node.  Mirrors the key lookup underlying `Json::Value::isMember`
and `operator[]` (objects produced by the JsonCpp reader have unique keys;
lookup takes the first match). -/
def Json.member : Json → String → Option Json
  | .obj fields, name => fields.lookup name
  | _, _ => none

/-- Mirrors `Json::Value::isMember`. -/
def Json.isMember (j : Json) (name : String) : Bool :=
  (j.member name).isSome

/-- Mirrors `parent[name]` on a const `Json::Value`: the member's value, or
the null value when the member is missing. -/
def Json.get (j : Json) (name : String) : Json :=
  (j.member name).getD .null

/-- Mirrors `Json::Value::isString`. -/
def Json.isString : Json → Bool
  | .str _ => true
  | _ => false

/-- Mirrors `Json::Value::isArray`. -/
def Json.isArray : Json → Bool
  | .arr _ => true
  | _ => false

/-- Mirrors `Json::Value::isObject`. -/
def Json.isObject : Json → Bool
  | .obj _ => true
  | _ => false

/-- Mirrors `Json::Value::empty()`: true for null and for arrays/objects of
size zero, false for every other value. -/
def Json.isEmpty : Json → Bool
  | .null => true
  | .arr elems => elems.isEmpty
  | .obj fields => fields.isEmpty
  | _ => false

/-- Outcome channel of the loader.  `err` embeds a `tl::unexpected` carrying
the error string; `abort` records that the code path ends in `std::abort()`
(the unknown-`Type` branch of `from_string`, which first prints the recorded
message to stderr); `thrown` records a `Json::LogicError` escaping from
`Json::Value::asString()` on a value with no string conversion. The last two
are not returned failure values in C++ — they terminate or unwind past
`load` — so keeping them as distinct constructors lets theorems tell a
returned failure from a crash. -/
inductive Failure where
  | err (msg : String)
  | abort (stderrText : String)
  | thrown
deriving DecidableEq, Repr

/-- Mirrors `Json::Value::asString()`: identity on strings, conversion for
null, bool and numbers, and a thrown `Json::LogicError` (embedded as
`Failure.thrown`) on arrays and objects. -/
def Json.asString : Json → Except Failure String
  | .null => .ok ""
  | .bool b => .ok (if b then "true" else "false")
  | .num n => .ok (toString n)
  | .str s => .ok s
  | .arr _ => .error .thrown
  | .obj _ => .error .thrown

/-- Implementation-defined text of `typeid(std::string).name()` in the
`get_optional<std::string>` error message (the value shown is the Itanium
ABI mangling used by GCC/Clang; no verified property depends on it). -/
def typeidStringName : String :=
  "NSt7__cxx1112basic_stringIcSt11char_traitsIcESaIcEEE"

/-- Implementation-defined text of `typeid(std::vector<std::string>).name()`
in the `get_optional<std::vector<std::string>>` error message. -/
def typeidVectorStringName : String :=
  "St6vectorINSt7__cxx1112basic_stringIcSt11char_traitsIcESaIcEEESaIS5_EE"

/-- Embeds `get_optional<std::string>` (loader.cpp:16-57, `T = std::string`
instantiation): a missing member is the non-error `none`; a present string
member is returned; any other present member is the "Optional field ... is
not of type ..." failure. -/
def get_optional_string (parent : Json) (parent_name name : String) :
    Except Failure (Option String) :=
  if !parent.isMember name then
    .ok none
  else
    match parent.get name with
    | .str s => .ok (some s)
    | _ =>
      .error (.err ("Optional field " ++ name ++ " in " ++ parent_name ++
        " is not of type " ++ typeidStringName ++ "!"))

/-- Embeds `get_optional<std::vector<std::string>>` (loader.cpp:16-57,
`T = std::vector<std::string>` instantiation): a missing member is `none`;
a present array member is decoded element-wise through `asString` (whose
exception on array/object elements propagates); any other present member is
the "Optional field ..." failure. -/
def get_optional_stringList (parent : Json) (parent_name name : String) :
    Except Failure (Option (List String)) :=
  if !parent.isMember name then
    .ok none
  else
    match parent.get name with
    | .arr elems =>
      match elems.mapM Json.asString with
      | .error e => .error e
      | .ok ret => .ok (some ret)
    | _ =>
      .error (.err ("Optional field " ++ name ++ " in " ++ parent_name ++
        " is not of type " ++ typeidVectorStringName ++ "!"))

/-- Embeds `get_required<std::string>` (loader.cpp:59-76, the only
instantiation the program uses).  A missing member is the "Required field
... is missing!" failure; otherwise the optional path runs and its result is
chained through `and_then`: an error propagates unchanged, a present value
is unwrapped.  In the (unreachable, see C10) branch where the optional path
returned success-with-`nullopt`, the C++ `return "bad";` selects
`tl::expected`'s value-converting constructor — `T` is `std::string`, so it
yields the value `"bad"`, not an error. -/
def get_required_string (parent : Json) (parent_name name : String) :
    Except Failure String :=
  if !parent.isMember name then
    .error (.err ("Required field " ++ name ++ " in " ++ parent_name ++
      " is missing!"))
  else
    match get_optional_string parent parent_name name with
    | .error e => .error e
    | .ok (some v) => .ok v
    | .ok none => .ok "bad"

/-- Embeds the `Type` enumeration of the loader (`Type` is a reserved name
in Lean, hence `CompType`). -/
inductive CompType where
  | EXECUTABLE
  | ARCHIVE
  | DYLIB
  | MODULE
  | INTERFACE
  | SYMBOLIC
deriving DecidableEq, Repr

/-- Embeds `from_string` (loader.cpp:78-100): exact, case-sensitive match
against the six recognized spellings — including the misspelt
`"interfafce"` for `INTERFACE` — and, for every other string, `std::cerr`
output followed by `abort()`, embedded as the `Failure.abort` outcome
carrying the stderr text. -/
def from_string (str : String) : Except Failure CompType :=
  if str = "executable" then .ok .EXECUTABLE
  else if str = "archive" then .ok .ARCHIVE
  else if str = "dylib" then .ok .DYLIB
  else if str = "module" then .ok .MODULE
  else if str = "interfafce" then .ok .INTERFACE
  else if str = "symbolic" then .ok .SYMBOLIC
  else .error (.abort ("Unknown type: " ++ str ++ "\n"))

/-- Embeds the `KnownLanguages` enumeration (declared in loader.hpp, which
is not under src/; its three members C, C++ and Fortran are pinned by their
uses in `get_lang_values`). -/
inductive KnownLanguages where
  | C
  | CPP
  | FORTRAN
deriving DecidableEq, Repr

/-- Embeds `LangValues`.  The alias itself lives in loader.hpp (not under
src/), but its use in loader.cpp — `LangValues ret{}` default-constructed
and returned as-is, `ret[lang] = v` map assignment, `ret.emplace(lang, v)`
map insertion — pins it as an unordered map from `KnownLanguages` to
`std::vector<std::string>`.  We embed that map restricted to its three
possible keys: one `Option` per key, `none` meaning the key is absent from
the map. -/
structure LangValues where
  c : Option (List String)
  cpp : Option (List String)
  fortran : Option (List String)
deriving DecidableEq, Repr

/-- Default-constructed `LangValues{}`: the empty map, no key present. -/
def LangValues.emptyMap : LangValues := ⟨none, none, none⟩

/-- Mirrors `ret[lang] = v` on the map: insert-or-overwrite. -/
def LangValues.set (lv : LangValues) (k : KnownLanguages) (v : List String) :
    LangValues :=
  match k with
  | .C => ⟨some v, lv.cpp, lv.fortran⟩
  | .CPP => ⟨lv.c, some v, lv.fortran⟩
  | .FORTRAN => ⟨lv.c, lv.cpp, some v⟩

/-- Mirrors `ret.emplace(lang, v)` on the map: insert only if the key is
absent. -/
def LangValues.emplace (lv : LangValues) (k : KnownLanguages) (v : List String) :
    LangValues :=
  match k with
  | .C => match lv.c with
    | some _ => lv
    | none => ⟨some v, lv.cpp, lv.fortran⟩
  | .CPP => match lv.cpp with
    | some _ => lv
    | none => ⟨lv.c, some v, lv.fortran⟩
  | .FORTRAN => match lv.fortran with
    | some _ => lv
    | none => ⟨lv.c, lv.cpp, some v⟩

/-- Map lookup on the embedded `LangValues`: `none` when the key is absent. -/
def LangValues.find (lv : LangValues) : KnownLanguages → Option (List String)
  | .C => lv.c
  | .CPP => lv.cpp
  | .FORTRAN => lv.fortran

/-- Conceptual per-language resolution described by the specification:
a lookup that defaults an absent key to the empty list (what a caller gets
from `operator[]` on the `unordered_map`). -/
def LangValues.resolve (lv : LangValues) (k : KnownLanguages) : List String :=
  (lv.find k).getD []

/-- Embeds `get_lang_values` (loader.cpp:102-142).  Absent field: the
default-constructed empty map is returned.  Object form: the three
recognized keys "C", "C++", "Fortran" are each decoded through
`get_optional<std::vector<std::string>>` (parent name for those inner
lookups is the field's own name, as in the code) and defaulted to the empty
list via `value_or`, assigned in that order with early return on the first
failure.  Array form: the array is decoded once element-wise and the same
list is emplaced for all three languages.  Any other shape: the
"Section ... is neither an object nor an array!" failure (whose two format
arguments are `parent_name` then `name`, in that order, as in the code). -/
def get_lang_values (parent : Json) (parent_name name : String) :
    Except Failure LangValues :=
  if !parent.isMember name then
    .ok LangValues.emptyMap
  else
    match parent.get name with
    | .obj inner =>
      match get_optional_stringList (.obj inner) name "C" with
      | .error e => .error e
      | .ok rc =>
        let ret1 := LangValues.emptyMap.set .C (rc.getD [])
        match get_optional_stringList (.obj inner) name "C++" with
        | .error e => .error e
        | .ok rcpp =>
          let ret2 := ret1.set .CPP (rcpp.getD [])
          match get_optional_stringList (.obj inner) name "Fortran" with
          | .error e => .error e
          | .ok rf => .ok (ret2.set .FORTRAN (rf.getD []))
    | .arr elems =>
      match elems.mapM Json.asString with
      | .error e => .error e
      | .ok fin =>
        .ok (((LangValues.emptyMap.emplace .C fin).emplace .CPP fin).emplace
          .FORTRAN fin)
    | _ =>
      .error (.err ("Section " ++ parent_name ++ " of " ++ name ++
        " is neither an object nor an array!"))

/-- Embeds `Component` (fields pinned by the `Component{type, cflags,
includes}` construction in loader.cpp:179-184 and the constructor at
loader.cpp:193-194). -/
structure Component where
  type : CompType
  compile_flags : LangValues
  includes : LangValues
deriving DecidableEq, Repr

/-- Mirrors `components[key] = v` on the
`std::unordered_map<std::string, Component>`: insert-or-overwrite by key. -/
def mapSet (m : List (String × Component)) (key : String) (v : Component) :
    List (String × Component) :=
  if m.any (fun p => p.1 == key) then
    m.map (fun p => if p.1 == key then (key, v) else p)
  else
    m ++ [(key, v)]

/-- Embeds the per-entry loop of `get_components` (loader.cpp:169-185): for
each key/value pair of the Components object, the value must be an object;
its `Type` is required and parsed by `from_string`, its `Compile-Flags` and
`Includes` reconciled by `get_lang_values` — in that order, the braced
initializer of `Component{...}` evaluating left to right with the `TRY`
macro returning the first failure.  (JsonCpp iterates an object in key-sorted
order; we iterate the embedded field list in its own order.  The resulting
map does not depend on the order except through same-key overwrites, which
cannot occur in reader-produced objects.) -/
def components_loop (entries : List (String × Json))
    (components : List (String × Component)) :
    Except Failure (List (String × Component)) :=
  match entries with
  | [] => .ok components
  | (key, comp) :: rest =>
    if !comp.isObject then
      .error (.err ("Component " ++ key ++ " is not an object"))
    else
      match get_required_string comp "Component" "Type" with
      | .error e => .error e
      | .ok tystr =>
        match from_string tystr with
        | .error e => .error e
        | .ok ty =>
          match get_lang_values comp "Component" "Compile-Flags" with
          | .error e => .error e
          | .ok cflags =>
            match get_lang_values comp "Component" "Includes" with
            | .error e => .error e
            | .ok includes =>
              components_loop rest (mapSet components key ⟨ty, cflags, includes⟩)

/-- Embeds `get_components` (loader.cpp:144-188).  The field is looked up
under the literal key "Components" (the `name` parameter is unused, as in
the code): absent yields the "Required field Components of ... is missing!"
failure; a present non-object yields "Components field of ... is not an
object"; a present empty object yields the "is empty" failure; otherwise the
entries are assembled by `components_loop`. -/
def get_components (parent : Json) (parent_name name : String) :
    Except Failure (List (String × Component)) :=
  if !parent.isMember "Components" then
    .error (.err ("Required field Components of " ++ parent_name ++
      " is missing!"))
  else
    match parent.get "Components" with
    | .obj entries =>
      if entries.isEmpty then
        .error (.err ("Components field of " ++ parent_name ++
          " is empty, but must have at least one component"))
      else
        components_loop entries []
    | _ =>
      .error (.err ("Components field of " ++ parent_name ++
        " is not an object"))

/-- Embeds `Package` (fields pinned by the constructor at
loader.cpp:205-210). -/
structure Package where
  name : String
  cps_version : String
  components : List (String × Component)
  default_components : Option (List String)
deriving DecidableEq, Repr

/-- Embeds `load` (loader.cpp:212-227) from the parsed document root: the
braced initializer of `Package{...}` evaluates its four `TRY` expressions
left to right — `Name`, `Cps-Version`, `Components`, `Default-Components` —
returning at the first failure. -/
def load (root : Json) : Except Failure Package :=
  match get_required_string root "package" "Name" with
  | .error e => .error e
  | .ok name =>
    match get_required_string root "package" "Cps-Version" with
    | .error e => .error e
    | .ok cps_version =>
      match get_components root "package" "Components" with
      | .error e => .error e
      | .ok components =>
        match get_optional_stringList root "package" "Default-Components" with
        | .error e => .error e
        | .ok default_components =>
          .ok ⟨name, cps_version, components, default_components⟩

/-! Helper lemmas shared by the claim theorems. -/

/-- Reduction of bind on an ok `Except` value. -/
theorem exceptBind_ok {ε α β : Type} (a : α) (f : α → Except ε β) :
    (Except.ok a : Except ε α) >>= f = f a := rfl

/-- Reduction of pure into the `Except` monad. -/
theorem exceptPure_eq_ok {ε α : Type} (a : α) :
    (pure a : Except ε α) = Except.ok a := rfl

/-- Loop-level form of element-wise `asString` decoding of an array whose
elements are all strings. -/
theorem mapM_loop_asString (ss acc : List String) :
    List.mapM.loop Json.asString (ss.map Json.str) acc
      = Except.ok (acc.reverse ++ ss) := by
  induction ss generalizing acc with
  | nil => simp [List.mapM.loop, exceptPure_eq_ok]
  | cons a t ih =>
    simp [List.mapM.loop, Json.asString, exceptBind_ok, ih]

/-- Element-wise `asString` decoding of an array whose elements are all
strings recovers exactly those strings. -/
theorem mapM_asString_of_strs (ss : List String) :
    (ss.map Json.str).mapM Json.asString = Except.ok ss := by
  simp [List.mapM, mapM_loop_asString]

/-! Claim theorems. -/

/-- C1: on a document whose component has `Type: "bogus"`, the code does not
return an `UnknownEnumValue` failure value — `from_string` prints to stderr
and calls `abort()`, terminating the process (the `Failure.abort` outcome of
the embedding).  This supports the code_bug verdict: the specification
(§4.4, §7, §9) states the intended behavior is a typed recoverable failure
and explicitly brands the abort a defect. -/
theorem C1_unknown_type_aborts :
    load (.obj [("Name", .str "pkg"), ("Cps-Version", .str "0.8"),
      ("Components", .obj [("comp", .obj [("Type", .str "bogus")])])])
      = .error (.abort ("Unknown type: bogus" ++ "\n")) := by
  rfl

/-- C2 counterexample: with `Compile-Flags` absent from the component
object, the reconciler returns the default-constructed empty map — the C key
(like the other two) is absent, not present-and-mapped-to-an-empty-list as
the claim states. -/
theorem C2_counterexample :
    get_lang_values (.obj []) "Component" "Compile-Flags"
      = .ok LangValues.emptyMap
    ∧ LangValues.emptyMap.find .C ≠ some [] := by
  refine ⟨rfl, ?_⟩
  intro h
  simp [LangValues.emptyMap, LangValues.find] at h

/-- C2 as amended: for a language-value field absent from its component
object, the reconciler returns the table with no language key stored, and
the conceptual lookup-with-empty-default of the specification resolves each
of the three languages to the empty list. -/
theorem C2_absent_field_empty_map (fields : List (String × Json))
    (parent_name name : String)
    (h : (Json.obj fields).isMember name = false) :
    get_lang_values (.obj fields) parent_name name = .ok LangValues.emptyMap
    ∧ ∀ k, LangValues.emptyMap.resolve k = [] := by
  refine ⟨by simp [get_lang_values, h], ?_⟩
  intro k
  cases k <;> rfl

/-- Witness for C2's amended theorem at the concrete empty component. -/
theorem C2_absent_field_empty_map_witness :
    get_lang_values (.obj []) "Component" "Compile-Flags"
      = .ok LangValues.emptyMap
    ∧ ∀ k, LangValues.emptyMap.resolve k = [] :=
  C2_absent_field_empty_map [] "Component" "Compile-Flags" rfl

/-- C5: `from_string` maps exactly the six case-sensitive spellings
(`"interfafce"` [sic] among them) to their component kinds, and every other
string reaches the unknown-enum branch — realized in this code as the
stderr-plus-`abort()` outcome (that realization being the defect treated by
C1). -/
theorem C5_type_tag_mapping :
    from_string "executable" = .ok .EXECUTABLE
    ∧ from_string "archive" = .ok .ARCHIVE
    ∧ from_string "dylib" = .ok .DYLIB
    ∧ from_string "module" = .ok .MODULE
    ∧ from_string "interfafce" = .ok .INTERFACE
    ∧ from_string "symbolic" = .ok .SYMBOLIC
    ∧ ∀ s : String,
        s ∉ (["executable", "archive", "dylib", "module", "interfafce",
          "symbolic"] : List String) →
        from_string s = .error (.abort ("Unknown type: " ++ s ++ "\n")) := by
  refine ⟨rfl, rfl, rfl, rfl, rfl, rfl, ?_⟩
  intro s hs
  simp only [List.mem_cons, List.not_mem_nil, or_false, not_or] at hs
  obtain ⟨h1, h2, h3, h4, h5, h6⟩ := hs
  simp [from_string, h1, h2, h3, h4, h5, h6]

/-- Witness for C5 at the case variant `"Executable"`, which is outside the
recognized vocabulary. -/
theorem C5_type_tag_mapping_witness :
    from_string "Executable"
      = .error (.abort ("Unknown type: " ++ "Executable" ++ "\n")) :=
  C5_type_tag_mapping.2.2.2.2.2.2 "Executable" (by decide)

/-- C3: a language-value field given in flat-array form with string elements
decodes once to that list of strings and the identical list is assigned to
all three languages. -/
theorem C3_array_broadcast (fields : List (String × Json))
    (parent_name name : String) (ss : List String)
    (h : fields.lookup name = some (.arr (ss.map Json.str))) :
    get_lang_values (.obj fields) parent_name name
      = .ok ⟨some ss, some ss, some ss⟩ := by
  have hm : (Json.obj fields).member name = some (.arr (ss.map Json.str)) := h
  simp [get_lang_values, Json.isMember, Json.get, hm, mapM_loop_asString,
    LangValues.emptyMap, LangValues.emplace]

/-- Witness for C3 at the concrete field `Compile-Flags: ["-O2"]`. -/
theorem C3_array_broadcast_witness :
    get_lang_values (.obj [("Compile-Flags", .arr [.str "-O2"])]) "Component"
      "Compile-Flags" = .ok ⟨some ["-O2"], some ["-O2"], some ["-O2"]⟩ :=
  C3_array_broadcast [("Compile-Flags", .arr [.str "-O2"])] "Component"
    "Compile-Flags" ["-O2"] rfl

/-- Relation used to state C4: in the object form of a language-value field,
a recognized language key either maps to an array of the given strings, or
is absent from the object and the given list is empty (the `value_or`
default). -/
def decodesLangKey (inner : List (String × Json)) (key : String)
    (v : List String) : Prop :=
  inner.lookup key = some (.arr (v.map Json.str))
  ∨ (inner.lookup key = none ∧ v = [])

/-- Under `decodesLangKey`, the optional list decode (as chained with
`value_or` in the object branch of `get_lang_values`) succeeds with the
given list. -/
theorem getD_optional_stringList (inner : List (String × Json))
    (pn key : String) (v : List String) (h : decodesLangKey inner key v) :
    ∃ r : Option (List String),
      get_optional_stringList (.obj inner) pn key = .ok r ∧ r.getD [] = v := by
  cases h with
  | inl h =>
    refine ⟨some v, ?_, rfl⟩
    have hm : (Json.obj inner).member key = some (.arr (v.map Json.str)) := h
    simp [get_optional_stringList, Json.isMember, Json.get, hm,
      mapM_loop_asString]
  | inr h =>
    refine ⟨none, ?_, by simp [h.2]⟩
    have hm : (Json.obj inner).member key = none := h.1
    simp [get_optional_stringList, Json.isMember, hm]

/-- C4: a language-value field given in object form decodes each recognized
language key ("C", "C++", "Fortran") independently as a list of strings,
defaults an absent key to the empty list, and ignores every other key of
the object. -/
theorem C4_object_form (fields inner : List (String × Json))
    (parent_name name : String) (cs cps fs : List String)
    (h : fields.lookup name = some (.obj inner))
    (hc : decodesLangKey inner "C" cs)
    (hcpp : decodesLangKey inner "C++" cps)
    (hf : decodesLangKey inner "Fortran" fs) :
    get_lang_values (.obj fields) parent_name name
      = .ok ⟨some cs, some cps, some fs⟩ := by
  obtain ⟨rc, hrc, hrc2⟩ := getD_optional_stringList inner name "C" cs hc
  obtain ⟨rcpp, hrcpp, hrcpp2⟩ := getD_optional_stringList inner name "C++" cps hcpp
  obtain ⟨rf, hrf, hrf2⟩ := getD_optional_stringList inner name "Fortran" fs hf
  have hm : (Json.obj fields).member name = some (.obj inner) := h
  simp [get_lang_values, Json.isMember, Json.get, hm, hrc, hrcpp, hrf, hrc2,
    hrcpp2, hrf2, LangValues.emptyMap, LangValues.set]

/-- Witness for C4 at the concrete field `Compile-Flags: {"C": ["-std=c99"]}`,
yielding `["-std=c99"]` under C and `[]` under C++ and Fortran. -/
theorem C4_object_form_witness :
    get_lang_values
      (.obj [("Compile-Flags", .obj [("C", .arr [.str "-std=c99"])])])
      "Component" "Compile-Flags"
      = .ok ⟨some ["-std=c99"], some [], some []⟩ :=
  C4_object_form [("Compile-Flags", .obj [("C", .arr [.str "-std=c99"])])]
    [("C", .arr [.str "-std=c99"])] "Component" "Compile-Flags"
    ["-std=c99"] [] [] rfl (Or.inl rfl) (Or.inr ⟨rfl, rfl⟩) (Or.inr ⟨rfl, rfl⟩)

/-- C6: the component map builder fails with the MissingRequiredField
message when `Components` is absent, the WrongFieldType message when it is
present but not an object, the EmptyRequiredCollection message when it is an
empty object, and succeeds only when `Components` is an object with at least
one entry. -/
theorem C6_components_validation :
    (∀ (fields : List (String × Json)) (pn n : String),
      fields.lookup "Components" = none →
      get_components (.obj fields) pn n
        = .error (.err ("Required field Components of " ++ pn ++
            " is missing!")))
    ∧ (∀ (fields : List (String × Json)) (pn n : String) (v : Json),
      fields.lookup "Components" = some v → v.isObject = false →
      get_components (.obj fields) pn n
        = .error (.err ("Components field of " ++ pn ++ " is not an object")))
    ∧ (∀ (fields : List (String × Json)) (pn n : String),
      fields.lookup "Components" = some (.obj []) →
      get_components (.obj fields) pn n
        = .error (.err ("Components field of " ++ pn ++
            " is empty, but must have at least one component")))
    ∧ (∀ (parent : Json) (pn n : String) (r : List (String × Component)),
      get_components parent pn n = .ok r →
      ∃ entries, parent.member "Components" = some (.obj entries)
        ∧ entries ≠ []) := by
  refine ⟨?_, ?_, ?_, ?_⟩
  · intro fields pn n h
    have hm : (Json.obj fields).member "Components" = none := h
    simp [get_components, Json.isMember, hm]
  · intro fields pn n v h hv
    have hm : (Json.obj fields).member "Components" = some v := h
    cases v
    case obj o => simp [Json.isObject] at hv
    all_goals simp [get_components, Json.isMember, Json.get, hm]
  · intro fields pn n h
    have hm : (Json.obj fields).member "Components" = some (.obj []) := h
    simp [get_components, Json.isMember, Json.get, hm]
  · intro parent pn n r h
    cases hm : parent.member "Components" with
    | none => simp [get_components, Json.isMember, hm] at h
    | some v =>
      cases v with
      | obj entries =>
        refine ⟨entries, rfl, ?_⟩
        intro hnil
        rw [hnil] at hm
        simp [get_components, Json.isMember, Json.get, hm] at h
      | null => simp [get_components, Json.isMember, Json.get, hm] at h
      | bool b => simp [get_components, Json.isMember, Json.get, hm] at h
      | num x => simp [get_components, Json.isMember, Json.get, hm] at h
      | str s => simp [get_components, Json.isMember, Json.get, hm] at h
      | arr es => simp [get_components, Json.isMember, Json.get, hm] at h

/-- Witness for C6: the three failure messages at concrete documents and a
concrete success past the validation. -/
theorem C6_components_validation_witness :
    get_components (.obj []) "package" "Components"
      = .error (.err ("Required field Components of " ++ "package" ++
          " is missing!"))
    ∧ get_components (.obj [("Components", .arr [])]) "package" "Components"
      = .error (.err ("Components field of " ++ "package" ++
          " is not an object"))
    ∧ get_components (.obj [("Components", .obj [])]) "package" "Components"
      = .error (.err ("Components field of " ++ "package" ++
          " is empty, but must have at least one component")) :=
  ⟨C6_components_validation.1 [] "package" "Components" rfl,
   C6_components_validation.2.1 [("Components", .arr [])] "package"
     "Components" (.arr []) rfl rfl,
   C6_components_validation.2.2.1 [("Components", .obj [])] "package"
     "Components" rfl⟩

/-- C7: `load` evaluates `Name`, `Cps-Version`, `Components`,
`Default-Components` in that fixed order; the first failure is the overall
result (the embedding of the remaining fields contributes nothing to it),
and the only non-failure result is the fully assembled `Package` built from
all four successful extractions — never a partial one. -/
theorem C7_load_first_failure :
    (∀ (root : Json) (e : Failure),
      get_required_string root "package" "Name" = .error e →
      load root = .error e)
    ∧ (∀ (root : Json) (nm : String) (e : Failure),
      get_required_string root "package" "Name" = .ok nm →
      get_required_string root "package" "Cps-Version" = .error e →
      load root = .error e)
    ∧ (∀ (root : Json) (nm cv : String) (e : Failure),
      get_required_string root "package" "Name" = .ok nm →
      get_required_string root "package" "Cps-Version" = .ok cv →
      get_components root "package" "Components" = .error e →
      load root = .error e)
    ∧ (∀ (root : Json) (nm cv : String)
        (comps : List (String × Component)) (e : Failure),
      get_required_string root "package" "Name" = .ok nm →
      get_required_string root "package" "Cps-Version" = .ok cv →
      get_components root "package" "Components" = .ok comps →
      get_optional_stringList root "package" "Default-Components" = .error e →
      load root = .error e)
    ∧ (∀ (root : Json) (nm cv : String)
        (comps : List (String × Component)) (defs : Option (List String)),
      get_required_string root "package" "Name" = .ok nm →
      get_required_string root "package" "Cps-Version" = .ok cv →
      get_components root "package" "Components" = .ok comps →
      get_optional_stringList root "package" "Default-Components" = .ok defs →
      load root = .ok ⟨nm, cv, comps, defs⟩) := by
  refine ⟨?_, ?_, ?_, ?_, ?_⟩ <;> intros <;> simp_all [load]

/-- Witness for C7: a document missing `Name` makes `load` return exactly
the `Name` failure. -/
theorem C7_load_first_failure_witness :
    load (.obj [])
      = .error (.err ("Required field " ++ "Name" ++ " in " ++ "package" ++
          " is missing!")) :=
  C7_load_first_failure.1 (.obj [])
    (.err ("Required field " ++ "Name" ++ " in " ++ "package" ++
      " is missing!")) rfl

/-- C8: the required-field resolver produces the MissingRequiredField
failure naming the field and the parent when the field is absent, and when
the field is present but the optional path fails, that exact failure value
is the resolver's result. -/
theorem C8_required_resolver :
    (∀ (parent : Json) (pn n : String),
      parent.isMember n = false →
      get_required_string parent pn n
        = .error (.err ("Required field " ++ n ++ " in " ++ pn ++
            " is missing!")))
    ∧ (∀ (parent : Json) (pn n : String) (e : Failure),
      parent.isMember n = true →
      get_optional_string parent pn n = .error e →
      get_required_string parent pn n = .error e) := by
  constructor
  · intro parent pn n h
    simp [get_required_string, h]
  · intro parent pn n e hmem hopt
    simp [get_required_string, hmem, hopt]

/-- Witness for C8: omitting `Name` yields the missing-field message naming
`Name` and its parent; a present but non-string `Type` propagates the
optional path's type failure unchanged. -/
theorem C8_required_resolver_witness :
    get_required_string (.obj []) "package" "Name"
      = .error (.err ("Required field " ++ "Name" ++ " in " ++ "package" ++
          " is missing!"))
    ∧ get_required_string (.obj [("Type", .num 1)]) "Component" "Type"
      = .error (.err ("Optional field " ++ "Type" ++ " in " ++ "Component" ++
          " is not of type " ++ typeidStringName ++ "!")) :=
  ⟨C8_required_resolver.1 (.obj []) "package" "Name" rfl,
   C8_required_resolver.2 (.obj [("Type", .num 1)]) "Component" "Type"
     (.err ("Optional field " ++ "Type" ++ " in " ++ "Component" ++
       " is not of type " ++ typeidStringName ++ "!")) rfl rfl⟩

/-- C9: a minimal valid document — string `Name`, string `Cps-Version`, one
component whose object carries a valid `Type` string — loads successfully
into the `Package` whose name, version and component kind are exactly the
input values (with empty language tables and no default components). -/
theorem C9_minimal_document (nm ver cname tystr : String) (k : CompType)
    (h : from_string tystr = .ok k) :
    load (.obj [("Name", .str nm), ("Cps-Version", .str ver),
      ("Components", .obj [(cname, .obj [("Type", .str tystr)])])])
      = .ok ⟨nm, ver,
          [(cname, ⟨k, LangValues.emptyMap, LangValues.emptyMap⟩)], none⟩ := by
  have hloop : components_loop [(cname, Json.obj [("Type", Json.str tystr)])] []
      = .ok [(cname, ⟨k, LangValues.emptyMap, LangValues.emptyMap⟩)] := by
    simp [components_loop, get_required_string, get_optional_string,
      get_lang_values, Json.isMember, Json.member, Json.get, Json.isObject,
      List.lookup, h, mapSet, LangValues.emptyMap]
  have hcomps : get_components (.obj [("Name", .str nm),
      ("Cps-Version", .str ver),
      ("Components", .obj [(cname, .obj [("Type", .str tystr)])])])
      "package" "Components"
      = .ok [(cname, ⟨k, LangValues.emptyMap, LangValues.emptyMap⟩)] := by
    simp [get_components, Json.isMember, Json.member, Json.get, List.lookup,
      hloop]
  simp [load, get_required_string, get_optional_string,
    get_optional_stringList, Json.isMember, Json.member, Json.get,
    List.lookup, hcomps]

/-- Witness for C9 at a concrete minimal document with `Type: "executable"`. -/
theorem C9_minimal_document_witness :
    load (.obj [("Name", .str "pkg"), ("Cps-Version", .str "0.8"),
      ("Components", .obj [("comp", .obj [("Type", .str "executable")])])])
      = .ok ⟨"pkg", "0.8",
          [("comp", ⟨.EXECUTABLE, LangValues.emptyMap, LangValues.emptyMap⟩)],
          none⟩ :=
  C9_minimal_document "pkg" "0.8" "comp" "executable" .EXECUTABLE rfl

/-- C10: when the membership check of the required resolver has passed, the
optional path never reports the absent outcome, so the `return "bad"` branch
is unreachable — for every present field the resolver's result is either the
decoded value or exactly the optional path's type-mismatch failure. -/
theorem C10_bad_branch_unreachable (parent : Json) (pn n : String)
    (h : parent.isMember n = true) :
    get_optional_string parent pn n ≠ .ok none
    ∧ ((∃ v, get_optional_string parent pn n = .ok (some v)
        ∧ get_required_string parent pn n = .ok v)
      ∨ (∃ e, get_optional_string parent pn n = .error e
        ∧ get_required_string parent pn n = .error e)) := by
  by_cases hstr : ∃ s, parent.get n = .str s
  · obtain ⟨s, hv⟩ := hstr
    refine ⟨?_, Or.inl ⟨s, ?_, ?_⟩⟩
    · simp [get_optional_string, h, hv]
    · simp [get_optional_string, h, hv]
    · simp [get_required_string, get_optional_string, h, hv]
  · have hopt : get_optional_string parent pn n
        = .error (.err ("Optional field " ++ n ++ " in " ++ pn ++
            " is not of type " ++ typeidStringName ++ "!")) := by
      cases hv : parent.get n
      case str s => exact absurd ⟨s, hv⟩ hstr
      all_goals simp [get_optional_string, h, hv]
    refine ⟨by simp [hopt], Or.inr ⟨_, hopt, ?_⟩⟩
    simp [get_required_string, h, hopt]

/-- Witness for C10 at a concrete present field of each flavor: a string
`Name` is decoded, a numeric `Name` propagates the optional failure. -/
theorem C10_bad_branch_unreachable_witness :
    get_optional_string (.obj [("Name", .str "pkg")]) "package" "Name"
      ≠ .ok none
    ∧ ((∃ v, get_optional_string (.obj [("Name", .str "pkg")]) "package"
          "Name" = .ok (some v)
        ∧ get_required_string (.obj [("Name", .str "pkg")]) "package" "Name"
          = .ok v)
      ∨ (∃ e, get_optional_string (.obj [("Name", .str "pkg")]) "package"
          "Name" = .error e
        ∧ get_required_string (.obj [("Name", .str "pkg")]) "package" "Name"
          = .error e)) :=
  C10_bad_branch_unreachable (.obj [("Name", .str "pkg")]) "package" "Name"
    rfl
